import Mathlib

/-!
Verification of the rag_app document-ingestion and retrieval core against its
specification. The Python source under src/ is embedded shallowly: pure
functions become Lean functions, stateful control flow becomes explicit state
passing, machine integers become Nat reduced modulo 2 ^ 32 where word
arithmetic matters, and fallible code returns Except.
-/

namespace RagApp

/-! ## SHA-256 (embedding of hashlib.sha256, per FIPS 180-4)

src/src/utils/hashers.py builds ids with hashlib.sha256 over UTF-8 bytes and
reads the hex digest. The algorithm is embedded over lists of byte values
(Nat below 256) with 32-bit words as Nat reduced modulo w32. -/

/-- The 32-bit word modulus. -/
def w32 : Nat := 2 ^ 32

/-- Right rotation of a 32-bit word. -/
def rotr (n x : Nat) : Nat := ((x >>> n) ||| (x <<< (32 - n))) % w32

/-- Bitwise complement of a 32-bit word. -/
def compl32 (x : Nat) : Nat := x ^^^ (w32 - 1)

/-- The SHA-256 choice function. -/
def sha256Ch (e f g : Nat) : Nat := (e &&& f) ^^^ (compl32 e &&& g)

/-- The SHA-256 majority function. -/
def sha256Maj (a b c : Nat) : Nat := (a &&& b) ^^^ (a &&& c) ^^^ (b &&& c)

/-- Upper-case sigma-0 of the compression function. -/
def bigSigma0 (x : Nat) : Nat := rotr 2 x ^^^ rotr 13 x ^^^ rotr 22 x

/-- Upper-case sigma-1 of the compression function. -/
def bigSigma1 (x : Nat) : Nat := rotr 6 x ^^^ rotr 11 x ^^^ rotr 25 x

/-- Lower-case sigma-0 of the message schedule. -/
def smallSigma0 (x : Nat) : Nat := rotr 7 x ^^^ rotr 18 x ^^^ (x >>> 3)

/-- Lower-case sigma-1 of the message schedule. -/
def smallSigma1 (x : Nat) : Nat := rotr 17 x ^^^ rotr 19 x ^^^ (x >>> 10)

/-- The 64 SHA-256 round constants, in decimal. -/
def sha256K : List Nat :=
  [1116352408, 1899447441, 3049323471, 3921009573, 961987163, 1508970993,
   2453635748, 2870763221, 3624381080, 310598401, 607225278, 1426881987,
   1925078388, 2162078206, 2614888103, 3248222580, 3835390401, 4022224774,
   264347078, 604807628, 770255983, 1249150122, 1555081692, 1996064986,
   2554220882, 2821834349, 2952996808, 3210313671, 3336571891, 3584528711,
   113926993, 338241895, 666307205, 773529912, 1294757372, 1396182291,
   1695183700, 1986661051, 2177026350, 2456956037, 2730485921, 2820302411,
   3259730800, 3345764771, 3516065817, 3600352804, 4094571909, 275423344,
   430227734, 506948616, 659060556, 883997877, 958139571, 1322822218,
   1537002063, 1747873779, 1955562222, 2024104815, 2227730452, 2361852424,
   2428436474, 2756734187, 3204031479, 3329325298]

/-- The working state of the compression function: eight 32-bit words. -/
structure Sha256State where
  a : Nat
  b : Nat
  c : Nat
  d : Nat
  e : Nat
  f : Nat
  g : Nat
  h : Nat
  deriving DecidableEq

/-- The SHA-256 initial hash value, in decimal. -/
def sha256Init : Sha256State :=
  ⟨1779033703, 3144134277, 1013904242, 2773480762,
   1359893119, 2600822924, 528734635, 1541459225⟩

/-- One round of the compression function. -/
def sha256Round (st : Sha256State) (k w : Nat) : Sha256State :=
  let t1 := (st.h + bigSigma1 st.e + sha256Ch st.e st.f st.g + k + w) % w32
  let t2 := (bigSigma0 st.a + sha256Maj st.a st.b st.c) % w32
  { a := (t1 + t2) % w32, b := st.a, c := st.b, d := st.c,
    e := (st.d + t1) % w32, f := st.e, g := st.f, h := st.g }

/-- Big-endian grouping of bytes into 32-bit words. -/
def bytesToWords32 : List Nat → List Nat
  | b0 :: b1 :: b2 :: b3 :: rest =>
      ((((b0 <<< 8) ||| b1) <<< 8 ||| b2) <<< 8 ||| b3) :: bytesToWords32 rest
  | _ => []

/-- One extension step of the message schedule: appends word number ws.length. -/
def sha256ScheduleStep (ws : List Nat) : List Nat :=
  let i := ws.length
  ws ++ [(smallSigma1 (ws.getD (i - 2) 0) + ws.getD (i - 7) 0 +
          smallSigma0 (ws.getD (i - 15) 0) + ws.getD (i - 16) 0) % w32]

/-- Extends the 16 message words by n further schedule words. -/
def sha256Schedule (ws : List Nat) : Nat → List Nat
  | 0 => ws
  | n + 1 => sha256Schedule (sha256ScheduleStep ws) n

/-- Compression of one 64-byte block into the running hash state. -/
def sha256Compress (hs : Sha256State) (block : List Nat) : Sha256State :=
  let ws := sha256Schedule (bytesToWords32 block) 48
  let fin := List.foldl (fun st kw => sha256Round st kw.1 kw.2) hs (sha256K.zip ws)
  { a := (hs.a + fin.a) % w32, b := (hs.b + fin.b) % w32, c := (hs.c + fin.c) % w32,
    d := (hs.d + fin.d) % w32, e := (hs.e + fin.e) % w32, f := (hs.f + fin.f) % w32,
    g := (hs.g + fin.g) % w32, h := (hs.h + fin.h) % w32 }

/-- Big-endian byte expansion of a number into k bytes. -/
def natToBytesBE (k n : Nat) : List Nat :=
  (List.range k).map (fun i => (n >>> (8 * (k - 1 - i))) % 256)

/-- SHA-256 padding: a 0x80 byte, zeros to 56 modulo 64, then the bit length
as eight big-endian bytes. -/
def padMessage (msg : List Nat) : List Nat :=
  let zeros := (120 - ((msg.length + 1) % 64)) % 64
  msg ++ 0x80 :: (List.replicate zeros 0 ++ natToBytesBE 8 (8 * msg.length))

/-- Splits a byte list into 64-byte blocks; the fuel bounds the recursion and
is set to the list length, which the 64-byte steps never exhaust. -/
def toBlocksAux : Nat → List Nat → List (List Nat)
  | _, [] => []
  | 0, _ :: _ => []
  | fuel + 1, b :: bs => ((b :: bs).take 64) :: toBlocksAux fuel ((b :: bs).drop 64)

/-- Splits a byte list into 64-byte blocks. -/
def toBlocks (bs : List Nat) : List (List Nat) := toBlocksAux bs.length bs

/-- The eight state words in output order. -/
def sha256StateWords (st : Sha256State) : List Nat :=
  [st.a, st.b, st.c, st.d, st.e, st.f, st.g, st.h]

/-- The SHA-256 digest of a byte list, as 32 bytes. -/
def sha256 (msg : List Nat) : List Nat :=
  let finalState := List.foldl sha256Compress sha256Init (toBlocks (padMessage msg))
  ((sha256StateWords finalState).map (natToBytesBE 4)).flatten

/-- A half-byte as a lower-case hex character. -/
def hexDigit (n : Nat) : Char :=
  if n < 10 then Char.ofNat (48 + n) else Char.ofNat (87 + n)

/-- A byte as two lower-case hex characters. -/
def byteToHex (b : Nat) : List Char := [hexDigit (b / 16), hexDigit (b % 16)]

/-- A byte list as a lower-case hex string, as hexdigest() renders it. -/
def bytesToHex (bs : List Nat) : String := ⟨(bs.map byteToHex).flatten⟩

/-- UTF-8 encoding of one code point. -/
def utf8EncodeChar (c : Nat) : List Nat :=
  if c < 0x80 then [c]
  else if c < 0x800 then [0xc0 ||| (c >>> 6), 0x80 ||| (c % 64)]
  else if c < 0x10000 then
    [0xe0 ||| (c >>> 12), 0x80 ||| ((c >>> 6) % 64), 0x80 ||| (c % 64)]
  else
    [0xf0 ||| (c >>> 18), 0x80 ||| ((c >>> 12) % 64), 0x80 ||| ((c >>> 6) % 64), 0x80 ||| (c % 64)]

/-- UTF-8 encoding of a string, as s.encode produces it. -/
def utf8Encode (s : String) : List Nat :=
  (s.data.map (fun c => utf8EncodeChar c.toNat)).flatten

/-- Embedding of hash_string (src/src/utils/hashers.py lines 4-20): the hex
SHA-256 digest of the UTF-8 bytes of the input string. -/
def hash_string (s : String) : String := bytesToHex (sha256 (utf8Encode s))

-- The four digests asserted by the repository tests (tests/test_utils.py
-- lines 44-65) validate the embedding of hashlib.sha256.
example : hash_string "hello" =
    "2cf24dba5fb0a30e26e83b2ac5b9e29e1b161e5c1fa7425e73043362938b9824" := by decide

example : hash_string "" =
    "e3b0c44298fc1c149afbf4c8996fb92427ae41e4649b934ca495991b7852b855" := by decide

example : hash_string "12345" =
    "5994471abb01112afcc18159f6cc74b4f511b99806da59b3caf5a9c173cacfc5" := by decide

example : hash_string "建築基準法施行令" =
    "44179010fc893672f9ac0cf12cb5b57b3f19e1f698bd88b001874388412bf3e9" := by decide

-- The FIPS 180-4 two-block vector checks the padding and block split.
set_option maxRecDepth 8192 in
example : hash_string "abcdbcdecdefdefgefghfghighijhijkijkljklmklmnlmnomnopnopq" =
    "248d6a61d20638b8e5c026930c3e6039a33ce45964ff2167f6ecedd419db06c1" := by decide

/-! ## Retry executor (embedding of async_retry, src/src/utils/decorators.py)

The wrapper loop of async_retry (lines 22-38) is embedded with explicit
state: the operation is a function from the 1-indexed attempt number to an
Except outcome, and the sleeps performed by asyncio.sleep are collected in
order. An arbitrary error type stands for the Python Exception, since the
except clause at line 28 binds every Exception alike. -/

/-- Outcome of a call to the wrapped function: the function value on a
successful attempt, the HTTPException(500, str e) raised at line 31 carrying
the last error once attempts reach max_attempts, or the implicit None return
when the while loop at line 25 is never entered. -/
inductive RunResult (ε α : Type) where
  | success : α → RunResult ε α
  | raised : ε → RunResult ε α
  | fellThrough : RunResult ε α
  deriving DecidableEq

/-- The while loop of the wrapper (decorators.py lines 23-37). State: the
attempts counter, the current delay, and the sleeps done so far. On failure
the counter is incremented, then either HTTPException is raised (attempts at
max) or asyncio.sleep(delay) runs before delay grows by backoffBase to the
power of the incremented counter. The fuel only bounds the recursion; from
asyncRetryRun it exceeds the loop iteration count and is never exhausted. -/
def asyncRetryLoop (op : Nat → Except ε α) (maxAttempts backoffBase : Nat) :
    Nat → Nat → Nat → List Nat → RunResult ε α × List Nat
  | 0, _, _, sleeps => (.fellThrough, sleeps)
  | fuel + 1, attempts, delay, sleeps =>
    if attempts < maxAttempts then
      match op (attempts + 1) with
      | .ok v => (.success v, sleeps)
      | .error e =>
        if maxAttempts ≤ attempts + 1 then (.raised e, sleeps)
        else
          asyncRetryLoop op maxAttempts backoffBase fuel (attempts + 1)
            (delay + backoffBase ^ (attempts + 1)) (sleeps ++ [delay])
    else (.fellThrough, sleeps)

/-- A call to a function wrapped by async_retry(logger, maxAttempts,
initialDelay, backoffBase): the loop starts with attempts = 0 and
delay = initial_delay (lines 23-24). -/
def asyncRetryRun (op : Nat → Except ε α) (maxAttempts initialDelay backoffBase : Nat) :
    RunResult ε α × List Nat :=
  asyncRetryLoop op maxAttempts backoffBase (maxAttempts + 1) 0 initialDelay []

/-- An operation that fails on attempts 1 and 2 and succeeds on attempt 3. -/
def opFailTwice : Nat → Except String Nat :=
  fun k => if k ≤ 2 then .error "transient" else .ok 7

/-- C2 counterexample: with max_attempts = 3, d0 = 1, b = 2 and an operation
failing on attempts 1 and 2, the wrapped call succeeds but the two sleeps are
1 and 1 + 2 ^ 1, not d0 + b ^ 1 then d0 + b ^ 2 as the claim states: the code
sleeps the current delay before incrementing it. -/
theorem asyncRetry_sleep_schedule_counterexample :
    (asyncRetryRun opFailTwice 3 1 2).1 = .success 7 ∧
    (asyncRetryRun opFailTwice 3 1 2).2 = [1, 3] ∧
    ¬ (asyncRetryRun opFailTwice 3 1 2).2 = [1 + 2 ^ 1, 1 + 2 ^ 2] := by
  decide

/-- C2 amended: for every operation failing on attempts 1 and 2 and
succeeding on attempt 3, the call wrapped with max_attempts = 3, initial
delay d0 and backoff base b succeeds overall and sleeps exactly twice, with
delays d0 before attempt 2 and d0 + b ^ 1 before attempt 3 (in general the
sleep before attempt k, k ≥ 2, is d0 plus the sum of b ^ j for j from 1 to
k - 2). -/
theorem asyncRetry_sleep_schedule (op : Nat → Except String Nat) (v : Nat)
    (e1 e2 : String) (d0 b : Nat)
    (h1 : op 1 = .error e1) (h2 : op 2 = .error e2) (h3 : op 3 = .ok v) :
    (asyncRetryRun op 3 d0 b).1 = .success v ∧
    (asyncRetryRun op 3 d0 b).2 = [d0, d0 + b ^ 1] := by
  simp [asyncRetryRun, asyncRetryLoop, h1, h2, h3]

/-- Witness for the amended C2 theorem at the concrete failing-failing-ok
operation with d0 = 1 and b = 2. -/
theorem asyncRetry_sleep_schedule_witness :
    opFailTwice 1 = .error "transient" ∧ opFailTwice 2 = .error "transient" ∧
    opFailTwice 3 = .ok 7 ∧
    ((asyncRetryRun opFailTwice 3 1 2).1 = .success 7 ∧
     (asyncRetryRun opFailTwice 3 1 2).2 = [1, 1 + 2 ^ 1]) :=
  ⟨rfl, rfl, rfl,
   asyncRetry_sleep_schedule opFailTwice 7 "transient" "transient" 1 2 rfl rfl rfl⟩

/-- A Python exception as the retry loop sees it: a message (what str(e)
renders) plus whether it signals a non-retryable caller error, such as
malformed input or rejected credentials. The except clause at decorators.py
line 28 binds every Exception and never reads any such distinction. -/
structure PyError where
  message : String
  callerError : Bool
  deriving DecidableEq

/-- An operation that always fails with a non-retryable caller error. -/
def opCallerError : Nat → Except PyError Nat :=
  fun _ => .error ⟨"401 unauthorized", true⟩

/-- C5 counterexample: an operation failing with a caller error (flagged
non-retryable) is nevertheless retried — the wrapped call with
max_attempts = 3 sleeps twice before surfacing the failure, instead of
surfacing it immediately without any retry. -/
theorem asyncRetry_retries_caller_errors :
    (asyncRetryRun opCallerError 3 1 2).2 = [1, 3] ∧
    ¬ (asyncRetryRun opCallerError 3 1 2).2 = [] := by
  decide

/-- C5 amended: the retry executor treats every failure alike. For every
error e, caller error or not, an operation that always raises e is retried
with sleeps d0 and d0 + b ^ 1 and only then surfaced as the HTTP 500
carrying e: no failure is surfaced without retry. -/
theorem asyncRetry_uniform_retry (e : PyError) (d0 b : Nat) :
    (asyncRetryRun (fun _ => (.error e : Except PyError Nat)) 3 d0 b).1 = .raised e ∧
    (asyncRetryRun (fun _ => (.error e : Except PyError Nat)) 3 d0 b).2 = [d0, d0 + b ^ 1] := by
  simp [asyncRetryRun, asyncRetryLoop]

/-! ## Decoration of the download operation (C3)

create_embeddings.py line 131 applies async_retry(logger, max_attempts=3,
initial_delay=1, backoff_factor=2) to _download_file. The keyword names of
that call are checked against the parameters of async_retry (decorators.py
line 7) under the Python call-binding rule: a keyword argument whose name is
not a parameter raises TypeError, since async_retry declares no kwargs
catch-all. -/

/-- Parameter names of async_retry (decorators.py line 7), in order. -/
def asyncRetryParams : List String :=
  ["logger", "max_attempts", "initial_delay", "backoff_base"]

/-- Keyword-argument names of the decorator call at create_embeddings.py
line 131 (logger is passed positionally). -/
def downloadRetryKwargNames : List String :=
  ["max_attempts", "initial_delay", "backoff_factor"]

/-- Python keyword binding for a function without a kwargs catch-all: the
first keyword name that is not a parameter name raises TypeError. -/
def bindKeywords (params kwargNames : List String) : Except String Unit :=
  match kwargNames.find? (fun k => !params.contains k) with
  | some k => .error ("TypeError: unexpected keyword argument " ++ k)
  | none => .ok ()

/-- C3: applying the decorator written at line 131 fails keyword binding:
backoff_factor is not a parameter of async_retry (the parameter is named
backoff_base), so the decoration raises TypeError and no retry-wrapped fetch
with those parameters is ever produced. -/
theorem download_decoration_binding_fails :
    bindKeywords asyncRetryParams downloadRetryKwargNames =
      .error "TypeError: unexpected keyword argument backoff_factor" ∧
    ¬ "backoff_factor" ∈ asyncRetryParams ∧
    "backoff_base" ∈ asyncRetryParams := by
  exact ⟨rfl, by decide, by decide⟩

/-! ## Ingestion response (C1)

CreateEmbeddingsResponse (src/src/models/response.py lines 10-14) is a
pydantic model whose fields ids, timestamp, file_name and details carry no
defaults, so all four are required at construction. The return statement of
create_embeddings (create_embeddings.py lines 126-128) passes details only;
pydantic validation of a construction call is embedded as the list of
required fields missing from the provided keyword names. -/

/-- Field names of CreateEmbeddingsResponse, all required (no defaults). -/
def createEmbeddingsResponseFields : List String :=
  ["ids", "timestamp", "file_name", "details"]

/-- Keyword names passed to CreateEmbeddingsResponse at the return site,
create_embeddings.py lines 126-128. -/
def createEmbeddingsReturnKwargNames : List String := ["details"]

/-- Required fields missing from a construction call. -/
def pydanticMissing (required provided : List String) : List String :=
  required.filter (fun f => !provided.contains f)

/-- Pydantic model construction: a ValidationError listing the missing
required fields, or success when none are missing. -/
def pydanticConstruct (required provided : List String) : Except (List String) Unit :=
  match pydanticMissing required provided with
  | [] => .ok ()
  | missing => .error missing

/-- C1: constructing the ingestion response at the return site fails
pydantic validation — ids, timestamp and file_name are required by the model
but absent from the call, so a successful ingestion raises ValidationError
instead of returning the claimed summary. -/
theorem createEmbeddingsResponse_construction_fails :
    pydanticConstruct createEmbeddingsResponseFields createEmbeddingsReturnKwargNames =
      .error ["ids", "timestamp", "file_name"] := by
  rfl

/-! ## Documents and fragment labeling (C4, C7)

langchain Document objects are embedded as a content string plus a metadata
dict; the labeling loop of create_embeddings assigns a fresh three-entry
dict, so metadata is an association list over a small value type. -/

/-- A metadata value: the dict written at create_embeddings.py line 105
holds a string and two ints. -/
inductive MetaVal where
  | vstr : String → MetaVal
  | vnat : Nat → MetaVal
  deriving DecidableEq

/-- Embedding of a langchain Document: page content plus metadata dict. -/
structure Document where
  page_content : String
  metadata : List (String × MetaVal)
  deriving DecidableEq

/-- Outcome of the await of _mock_ocr_extraction at create_embeddings.py
line 90: a Document, a MemoryError, or any other raised exception (the
function opens and parses sample JSON files, so FileNotFoundError, KeyError
or a JSON decode error can propagate from it). -/
inductive ExtractionOutcome where
  | ok : Document → ExtractionOutcome
  | memoryError : ExtractionOutcome
  | raised : String → ExtractionOutcome
  deriving DecidableEq

/-- Embedding of create_embeddings.py lines 89-96: the try block awaits the
extraction catching only MemoryError (the handler just logs), and
os.remove(file_path) is the next statement after the try. The result pairs
what propagates out of the segment (the extracted Document, if any) with
whether the os.remove at line 96 executed. -/
def extractThenCleanup (outcome : ExtractionOutcome) :
    Except String (Option Document) × Bool :=
  match outcome with
  | .ok d => (.ok (some d), true)
  | .memoryError => (.ok none, true)
  | .raised exc => (.error exc, false)

/-- C4 counterexample: when extraction raises an exception other than
MemoryError, the exception propagates past the except clause and the
downloaded artifact is not removed — refuting removal on every execution
path regardless of extraction failure. -/
theorem cleanup_skipped_on_extraction_error :
    (extractThenCleanup (.raised "FileNotFoundError")).2 = false ∧
    ¬ (extractThenCleanup (.raised "FileNotFoundError")).2 = true := by
  decide

/-- C4 amended: the downloaded artifact is removed when extraction succeeds
and when it raises MemoryError (the only exception the handler catches), but
any other extraction exception propagates before the removal, which then
does not run. -/
theorem cleanup_exactly_on_ok_or_memoryError (d : Document) (exc : String) :
    (extractThenCleanup (.ok d)).2 = true ∧
    (extractThenCleanup .memoryError).2 = true ∧
    (extractThenCleanup (.raised exc)).2 = false := by
  exact ⟨rfl, rfl, rfl⟩

/-! ## Resumable download (C6)

The body of _download_file (create_embeddings.py lines 144-157) fixes, from
the on-disk state of the partial file, the open mode, the request headers,
and the rename performed at line 157 once streaming completes. -/

/-- On-disk state of the partial file at the start of a fetch attempt. -/
structure PartialFileState where
  onDisk : Bool
  size : Nat
  deriving DecidableEq

/-- What one fetch attempt does, as fixed by lines 144-157: the aiofiles
open mode, the value of the Range header if one is sent, and whether the
partial file is renamed to the destination after a fully streamed success. -/
structure FetchAttemptPlan where
  mode : String
  rangeHeader : Option String
  renameOnSuccess : Bool
  deriving DecidableEq

/-- Embedding of _download_file lines 144-157. mode is wb unless the partial
file exists (line 145); existing_size is its size or 0 (line 146); the Range
header bytes=existing_size- is sent when existing_size is truthy, that is
nonzero (line 147); on success the partial file is renamed (line 157). -/
def downloadFilePlan (st : PartialFileState) : FetchAttemptPlan :=
  let mode := if !st.onDisk then "wb" else "ab"
  let existing_size := if st.onDisk then st.size else 0
  let rangeHeader :=
    if existing_size ≠ 0 then some ("bytes=" ++ toString existing_size ++ "-") else none
  ⟨mode, rangeHeader, true⟩

/-- C6 counterexample: with an existing partial file of size 0, the request
carries no Range header at all — the existence of the partial file does not
imply a byte-range request, since the code tests the size for truthiness,
not the existence. -/
theorem download_no_range_for_empty_partial :
    (downloadFilePlan ⟨true, 0⟩).rangeHeader = none ∧
    (downloadFilePlan ⟨true, 0⟩).mode = "ab" ∧
    ¬ (downloadFilePlan ⟨true, 0⟩).rangeHeader =
        some ("bytes=" ++ toString (0 : Nat) ++ "-") := by
  decide

/-- C6 amended: a fetch attempt sends the byte-range header starting at the
partial size s exactly when the partial file exists with nonzero s (an
existing empty partial file gets an unranged request); the body is appended
exactly when the partial file exists, written fresh otherwise; and on full
success the partial file is renamed to the destination path. -/
theorem download_plan_spec (st : PartialFileState) :
    (downloadFilePlan st).rangeHeader =
      (if st.onDisk ∧ st.size ≠ 0 then some ("bytes=" ++ toString st.size ++ "-") else none) ∧
    (downloadFilePlan st).mode = (if st.onDisk then "ab" else "wb") ∧
    (downloadFilePlan st).renameOnSuccess = true := by
  obtain ⟨onDisk, size⟩ := st
  cases onDisk <;> by_cases hs : size = 0 <;> simp [downloadFilePlan, hs]

/-- The metadata dict assigned to each chunk at create_embeddings.py
line 105. -/
def chunkMetadata (file_name : String) (idx timestamp : Nat) : List (String × MetaVal) :=
  [("name", .vstr file_name), ("chunk_id", .vnat idx), ("timestamp", .vnat timestamp)]

/-- The enumerate loop of create_embeddings.py lines 103-107, carrying the
running index: each document gets its metadata dict overwritten and the ids
list gets the hash of the index and file name appended. -/
def addMetadataGo (file_name : String) (timestamp : Nat) :
    Nat → List Document → List String × List Document
  | _, [] => ([], [])
  | idx, doc :: rest =>
    let labeled := { doc with metadata := chunkMetadata file_name idx timestamp }
    let docId := hash_string (toString idx ++ "_" ++ file_name)
    let (ids, docs) := addMetadataGo file_name timestamp (idx + 1) rest
    (docId :: ids, labeled :: docs)

/-- Embedding of the labeling loop of create_embeddings (lines 103-107; the
repository tests exercise the same loop under the name _add_metadata):
enumerate the chunked documents from 0, attach the metadata dict, and build
the id list from hash_string of the index and file name. -/
def add_metadata (documents : List Document) (file_name : String) (timestamp : Nat) :
    List String × List Document :=
  addMetadataGo file_name timestamp 0 documents

/-- Closed form of the labeling loop from any starting index. -/
theorem addMetadataGo_spec (file_name : String) (timestamp : Nat)
    (documents : List Document) :
    ∀ idx, addMetadataGo file_name timestamp idx documents =
      ((List.range documents.length).map
         (fun i => hash_string (toString (idx + i) ++ "_" ++ file_name)),
       (documents.enumFrom idx).map
         (fun p => { p.2 with metadata := chunkMetadata file_name p.1 timestamp })) := by
  induction documents with
  | nil => intro idx; simp [addMetadataGo]
  | cons d rest ih =>
    intro idx
    simp only [addMetadataGo, ih (idx + 1), List.length_cons, List.range_succ_eq_map,
      List.map_cons, List.map_map, List.enumFrom, Nat.add_zero, Prod.mk.injEq]
    refine ⟨?_, trivial⟩
    congr 1
    refine List.map_congr_left (fun i _ => ?_)
    have h : idx + 1 + i = idx + (i + 1) := by omega
    simp only [Function.comp_apply, Nat.succ_eq_add_one, h]

/-- C7: labeling attaches to the fragment at 0-based position i the metadata
dict with the source name, chunk_id i and the timestamp; the id list is the
hex SHA-256 (of the UTF-8 bytes, via hash_string validated above against the
repository test vectors) of the string formed from the index, an underscore
and the source name; ids and labeled fragments are index-aligned lists of
the input length; and the ids depend only on the positions and the source
name — scrubbing every fragment content and the timestamp leaves them
unchanged, so labeling is deterministic in (index, name). -/
theorem labeling_spec (documents : List Document) (file_name : String) (timestamp : Nat) :
    (add_metadata documents file_name timestamp).1 =
      (List.range documents.length).map
        (fun i => hash_string (toString i ++ "_" ++ file_name)) ∧
    (add_metadata documents file_name timestamp).2 =
      documents.enum.map
        (fun p => { p.2 with metadata := chunkMetadata file_name p.1 timestamp }) ∧
    (add_metadata documents file_name timestamp).1.length = documents.length ∧
    (add_metadata documents file_name timestamp).2.length = documents.length ∧
    (add_metadata documents file_name timestamp).1 =
      (add_metadata (documents.map
        (fun _ => ({ page_content := "", metadata := [] } : Document))) file_name 0).1 := by
  have h0 := addMetadataGo_spec file_name timestamp documents 0
  have h1 := addMetadataGo_spec file_name 0
    (documents.map (fun _ => ({ page_content := "", metadata := [] } : Document))) 0
  simp only [add_metadata, h0, h1, List.enum, List.length_map, List.length_range,
    Nat.zero_add, List.enumFrom_length]
  refine ⟨by simp, by simp, by simp, by simp, by simp⟩

/-! ## Chunker configuration (C8)

The langchain text splitter is embedded at the configuration level: the
separator list, the unit the size is measured in, and the size and overlap
parameters fully determine which splitter _chunk_content hands the document
to. The library behavior that the embedding must capture is that
TextSplitter.from_tiktoken_encoder (langchain_text_splitters base) is a
classmethod: it builds a NEW splitter of the class from its own keyword
arguments and a tiktoken length function, so the receiver it is called on
contributes nothing — in particular not its separators, and the new
RecursiveCharacterTextSplitter falls back to the class default separators. -/

/-- A text splitter, as far as chunking behavior is configured by it:
separators in the order tried, the tokenizer encoding the size is measured
with (none meaning raw character count), and size and overlap. -/
structure TextSplitterConfig where
  separators : List String
  tokenEncoding : Option String
  chunk_size : Nat
  chunk_overlap : Nat
  deriving DecidableEq

/-- Default separators of RecursiveCharacterTextSplitter when none are
given: paragraph break, line break, space, then character fallback. -/
def defaultSeparators : List String := ["\n\n", "\n", " ", ""]

/-- RecursiveCharacterTextSplitter construction: given separators or the
class default, character-counted, with the TextSplitter default size 4000
and overlap 200 when not supplied. -/
def recursiveCharacterTextSplitter (separators : Option (List String)) : TextSplitterConfig :=
  { separators := separators.getD defaultSeparators, tokenEncoding := none,
    chunk_size := 4000, chunk_overlap := 200 }

/-- TextSplitter.from_tiktoken_encoder as a classmethod: a fresh splitter
built from the given encoding, size and overlap alone; the receiver instance
is discarded, so the fresh instance carries the default separators. -/
def from_tiktoken_encoder (receiver : TextSplitterConfig) (encoding_name : String)
    (chunk_size chunk_overlap : Nat) : TextSplitterConfig :=
  let _ := receiver
  { recursiveCharacterTextSplitter none with
      tokenEncoding := some encoding_name, chunk_size := chunk_size,
      chunk_overlap := chunk_overlap }

/-- The separator list literal of _chunk_content, create_embeddings.py
lines 217-229: paragraph break, line break, space, Western period and comma,
zero-width space, fullwidth comma, ideographic comma, fullwidth full stop,
ideographic full stop, and the empty-string character fallback. -/
def customSeparators : List String :=
  ["\n\n", "\n", " ", ".", ",", "​", "，", "、", "．", "。", ""]

/-- The splitter _chunk_content actually uses (create_embeddings.py
lines 216-234): the custom-separator instance piped through
from_tiktoken_encoder with the given encoding, size and overlap. -/
def chunkContentSplitter (encoding_name : String) (chunk_size chunk_overlap : Nat) :
    TextSplitterConfig :=
  from_tiktoken_encoder (recursiveCharacterTextSplitter (some customSeparators))
    encoding_name chunk_size chunk_overlap

/-- C8: the splitter _chunk_content runs with its defaults
(encoding cl100k_base, size 8191, overlap 50) does measure size in tokens of
the embedding tokenizer encoding, but its effective separator list is the
class default — paragraph break, line break, space, character fallback —
because from_tiktoken_encoder discards the receiver carrying the custom
list: none of the punctuation separators written at lines 217-229 (Western
or East-Asian marks, zero-width space) is tried. -/
theorem chunk_separators_discarded :
    (chunkContentSplitter "cl100k_base" 8191 50).separators = defaultSeparators ∧
    (chunkContentSplitter "cl100k_base" 8191 50).tokenEncoding = some "cl100k_base" ∧
    (chunkContentSplitter "cl100k_base" 8191 50).chunk_size = 8191 ∧
    (chunkContentSplitter "cl100k_base" 8191 50).chunk_overlap = 50 ∧
    ¬ "." ∈ (chunkContentSplitter "cl100k_base" 8191 50).separators ∧
    ¬ "。" ∈ (chunkContentSplitter "cl100k_base" 8191 50).separators ∧
    ¬ "，" ∈ (chunkContentSplitter "cl100k_base" 8191 50).separators ∧
    ¬ "​" ∈ (chunkContentSplitter "cl100k_base" 8191 50).separators ∧
    "。" ∈ customSeparators ∧ "，" ∈ customSeparators ∧
    "​" ∈ customSeparators ∧ customSeparators.getLast? = some "" := by
  decide

/-! ## Index dimension table (C9)

DIMENSIONS (create_embeddings.py lines 37-41, duplicated in clients.py
lines 13-17) maps embedding-model names to vector dimensions. Index creation
(_check_pinecone_index line 264 and get_pinecone_index line 70) resolves the
dimension as DIMENSIONS subscripted by the configured model when the
dimension argument is left at its None default; a dict subscript with a
missing key raises KeyError. -/

/-- The DIMENSIONS table. -/
def DIMENSIONS : List (String × Nat) :=
  [("text-embedding-3-small", 1536), ("text-embedding-3-large", 3072),
   ("text-embedding-ada-002", 1536)]

/-- Python dict subscript: the value, or KeyError for a missing key. -/
def dictLookup (table : List (String × Nat)) (key : String) : Except String Nat :=
  match table.find? (fun kv => kv.1 == key) with
  | some kv => .ok kv.2
  | none => .error ("KeyError: " ++ key)

/-- Dimension resolution of the create_index calls: the explicit dimension
argument when given, else the table entry for the configured model. Both
call sites leave the argument at its None default. -/
def resolveDimension (model : String) (dimension : Option Nat) : Except String Nat :=
  match dimension with
  | some d => .ok d
  | none => dictLookup DIMENSIONS model

/-- C9: the dimension table covers the three known model variants with their
exact output dimensionality, and for any model name with no table entry the
resolution raises KeyError — index creation fails rather than falling back
to a silent default dimension. -/
theorem dimension_table_spec (m : String)
    (hm : DIMENSIONS.find? (fun kv => kv.1 == m) = none) :
    resolveDimension "text-embedding-3-small" none = .ok 1536 ∧
    resolveDimension "text-embedding-3-large" none = .ok 3072 ∧
    resolveDimension "text-embedding-ada-002" none = .ok 1536 ∧
    resolveDimension m none = .error ("KeyError: " ++ m) := by
  refine ⟨rfl, rfl, rfl, ?_⟩
  simp [resolveDimension, dictLookup, hm]

/-- Witness for the dimension-table theorem at a model name outside the
table. -/
theorem dimension_table_spec_witness :
    DIMENSIONS.find? (fun kv => kv.1 == "text-embedding-4-huge") = none ∧
    (resolveDimension "text-embedding-3-small" none = .ok 1536 ∧
     resolveDimension "text-embedding-3-large" none = .ok 3072 ∧
     resolveDimension "text-embedding-ada-002" none = .ok 1536 ∧
     resolveDimension "text-embedding-4-huge" none =
       .error ("KeyError: " ++ "text-embedding-4-huge")) :=
  ⟨rfl, dimension_table_spec "text-embedding-4-huge" rfl⟩

/-! ## Query response shapes (C10)

The chain invocation result in query (query.py line 47) is annotated
dict[str, list[Document] | str]: each of the answer and context entries is a
string or a list of Documents. Lines 55-61 check isinstance(answer, str) and
isinstance(context, list) and raise TypeError otherwise. -/

/-- A value of the chain response dict, per the annotation at line 47. -/
inductive ChainValue where
  | str : String → ChainValue
  | docList : List Document → ChainValue
  deriving DecidableEq

/-- Whether a chain value satisfies isinstance(x, str). -/
def ChainValue.isStr : ChainValue → Bool
  | .str _ => true
  | .docList _ => false

/-- Whether a chain value satisfies isinstance(x, list). -/
def ChainValue.isList : ChainValue → Bool
  | .str _ => false
  | .docList _ => true

/-- Embedding of query.py lines 55-61: when the answer is a str and the
context is a list, return the answer with the page contents of the context
documents; otherwise raise TypeError (whose message interpolates the two
types; the embedding keeps the fixed prefix). -/
def extractAnswerContext (answer context : ChainValue) :
    Except String (String × List String) :=
  if answer.isStr && context.isList then
    match answer, context with
    | .str a, .docList docs => .ok (a, docs.map (fun d => d.page_content))
    | _, _ => .error "TypeError: Response does not contain expected types"
  else .error "TypeError: Response does not contain expected types"

/-- C10: when the generation output is a plain string and the retrieved
context is a list of documents, the query operation returns the answer
together with the raw per-fragment context strings; on every other shape —
answer a document list, or context a plain string — it raises TypeError
rather than coercing the value. -/
theorem query_shape_contract (a s : String) (docs ds : List Document)
    (av cv : ChainValue) :
    extractAnswerContext (.str a) (.docList docs) =
      .ok (a, docs.map (fun d => d.page_content)) ∧
    extractAnswerContext (.docList ds) cv =
      .error "TypeError: Response does not contain expected types" ∧
    extractAnswerContext av (.str s) =
      .error "TypeError: Response does not contain expected types" := by
  refine ⟨rfl, ?_, ?_⟩
  · cases cv <;> rfl
  · cases av <;> rfl

end RagApp
